import Mathlib

/-!
# Verification of django-tenancy against its specification

A shallow embedding of the repository `carlosveliz/django-tenancy`.

Part I embeds `tenancy/__init__.py`'s `get_tenant_model`, the only
non-test source function present in the repository, faithfully: the
string splitting of the `TENANCY_TENANT_MODEL` setting, the lowercasing
of the model-name half, the `seed_cache` / `only_installed` flag
computation, the `get_model` lookup (abstracted as an environment
function, since Django's app cache is external), and both
`ImproperlyConfigured` branches.  Python's tuple-unpacking failure on a
malformed setting (a `ValueError`, since the source wraps the
`split('.')` in no handler) is embedded explicitly.

Part II models the dynamic per-tenant model synthesis engine
(registry/type cache, relation rewriter, synthesizer, lifecycle
teardown, custom type-check semantics, lifecycle signals).  Its source
module is not part of the repository snapshot (only its tests and
callers are), so those definitions are modelled from the specification
text, as marked in their doc comments.
-/

namespace Tenancy

/-! ## Part I: `tenancy/__init__.py` — `get_tenant_model` -/

/-- Errors a Python callee can surface.  `improperlyConfigured` embeds
Django's `django.core.exceptions.ImproperlyConfigured`; `valueError`
embeds Python's built-in `ValueError` (raised, e.g., by tuple unpacking
when the number of values does not match). -/
inductive PyError where
  | improperlyConfigured (msg : String)
  | valueError (msg : String)
deriving DecidableEq, Repr

/-- A Django model class as seen by `get_tenant_model`: its app label,
its object name, and whether it is a subclass of
`tenancy.models.AbstractTenant` (the only facts about the class the
function consults). -/
structure PyModelClass where
  app_label : String
  object_name : String
  subclassesAbstractTenant : Bool
deriving DecidableEq, Repr

/-- Equality of embedded Python call results is decidable, so concrete
runs of `get_tenant_model` can be checked by evaluation. -/
instance : DecidableEq (Except PyError PyModelClass) := fun a b =>
  match a, b with
  | .error x, .error y =>
    if h : x = y then isTrue (by rw [h]) else isFalse (fun hh => h (by cases hh; rfl))
  | .ok x, .ok y =>
    if h : x = y then isTrue (by rw [h]) else isFalse (fun hh => h (by cases hh; rfl))
  | .error _, .ok _ => isFalse (fun hh => nomatch hh)
  | .ok _, .error _ => isFalse (fun hh => nomatch hh)

/-- The Django runtime surface `get_tenant_model` touches:
`django.db.models.get_model(app_label, model_name, seed_cache=...,
only_installed=...)`, returning `None` (here `none`) when no matching
model is found. -/
structure DjangoEnv where
  get_model : String → String → Bool → Bool → Option PyModelClass

/-- Embedding of Python's `str.split(sep)` for a single-character
separator: splits at every occurrence, keeping empty pieces, and yields
one piece even for the empty string — exactly `List.splitOn` on the
character list. -/
def pySplit (sep : Char) (s : String) : List String :=
  (s.toList.splitOn sep).map (fun cs => String.mk cs)

/-- Embedding of Python's `str.lower()` on the ASCII identifiers model
names are made of: lowercase every character. -/
def pyLower (s : String) : String :=
  String.mk (s.toList.map Char.toLower)

/-- The arguments `get_tenant_model` hands to `get_model` once the
setting has been split into `app_label` and `object_name`
(`tenancy/__init__.py`, lines 15-21): the model name is the lowercased
object name, `seed_cache` is `origin is None`, and `only_installed` is
`origin != app_label`. -/
def tenant_model_lookup_args (app_label object_name : String)
    (origin : Option String) : String × String × Bool × Bool :=
  (app_label, pyLower object_name, origin.isNone, decide (origin ≠ some app_label))

/-- Embedding of `tenancy/__init__.py`, lines 18-31: the part of
`get_tenant_model` after the setting has been split into `app_label`
and `object_name`. -/
def get_tenant_model_body (env : DjangoEnv) (app_label object_name : String)
    (origin : Option String) : Except PyError PyModelClass :=
  let args := tenant_model_lookup_args app_label object_name origin
  match env.get_model args.1 args.2.1 args.2.2.1 args.2.2.2 with
  | none =>
    .error (.improperlyConfigured
      ("TENANCY_TENANT_MODEL refers to model '" ++ app_label ++ "." ++
        object_name ++ "' that has not been installed"))
  | some tenant_model =>
    if tenant_model.subclassesAbstractTenant then
      .ok tenant_model
    else
      .error (.improperlyConfigured
        ("TENANCY_TENANT_MODEL refers to models '" ++ app_label ++ "." ++
          object_name ++ "' which is not a subclass of 'tenancy.AbstractTenant'"))

/-- Embedding of `tenancy/__init__.py`, lines 9-31 (`get_tenant_model`).
`TENANT_MODEL` is the `TENANCY_TENANT_MODEL` setting value, passed
explicitly instead of read from `tenancy.settings`.  The source unpacks
`TENANT_MODEL.split('.')` into exactly two names with no surrounding
handler, so any other shape raises a bare `ValueError` from tuple
unpacking. -/
def get_tenant_model (env : DjangoEnv) (TENANT_MODEL : String)
    (origin : Option String := none) : Except PyError PyModelClass :=
  match pySplit '.' TENANT_MODEL with
  | [app_label, object_name] => get_tenant_model_body env app_label object_name origin
  | parts =>
    .error (.valueError
      ("need exactly 2 values to unpack, got " ++ toString parts.length))

/-- A concrete Django environment for witnesses: it installs
`contenttypes.ContentType` (not an `AbstractTenant` subclass) and
`tenancy.Tenant` (an `AbstractTenant` subclass), and nothing else. -/
def sampleEnv : DjangoEnv :=
  ⟨fun app_label model_name _ _ =>
    if app_label = "contenttypes" ∧ model_name = "contenttype" then
      some ⟨"contenttypes", "ContentType", false⟩
    else if app_label = "tenancy" ∧ model_name = "tenant" then
      some ⟨"tenancy", "Tenant", true⟩
    else
      none⟩

/-! ## Part II: the per-tenant model synthesis engine

The engine lives in `tenancy/models.py`, which is not part of this
repository snapshot (only `tenancy/tests/__init__.py`, which imports
and exercises it, is).  The definitions below are therefore modelled
from the specification (sections 2-4 of `spec.md`). -/

/-- Tenant identity: the unique identifier of a persisted Tenant row. -/
abbrev TenantId := Nat

/-- Identity of an abstract tenant-model declaration. -/
abbrev DeclId := Nat

/-- Modelled from the spec: the target of a declared relational field —
either another tenant-aware declaration (referenced by identity,
supporting forward references) or a non-tenant-aware model (shared,
not isolated). -/
inductive RelTarget where
  | tenantAware (target : DeclId)
  | nonTenant (name : String)
deriving DecidableEq, Repr

/-- Modelled from the spec: a field of an abstract declaration — plain,
foreign key, or many-to-many (optionally with an explicit through
model). -/
inductive FieldDecl where
  | plain (name : String)
  | fk (name : String) (target : RelTarget)
  | m2m (name : String) (target : RelTarget) (through : Option RelTarget)
deriving DecidableEq, Repr

/-- Modelled from the spec: an abstract tenant-model declaration — an
identity, its declared fields, and its tenant-aware abstract parent
declarations (subclassing). -/
inductive Decl where
  | node (id : DeclId) (fields : List FieldDecl) (parents : List Decl)

/-- The identity of a declaration. -/
def Decl.id : Decl → DeclId
  | .node i _ _ => i

/-- The fields declared directly on a declaration. -/
def Decl.ownFields : Decl → List FieldDecl
  | .node _ fs _ => fs

/-- The tenant-aware abstract parents of a declaration. -/
def Decl.parents : Decl → List Decl
  | .node _ _ ps => ps

mutual

/-- The identity of a declaration together with the identities of all
its tenant-aware ancestors (the declarations a concrete model
synthesized from it genuinely subclasses). -/
def Decl.ancestorIds : Decl → List DeclId
  | .node i _ ps => i :: Decl.ancestorIdsOfList ps

/-- Ancestor identities of each declaration in a list, concatenated. -/
def Decl.ancestorIdsOfList : List Decl → List DeclId
  | [] => []
  | d :: ds => Decl.ancestorIds d ++ Decl.ancestorIdsOfList ds

end

mutual

/-- All fields of a declaration, its own and those inherited from
tenant-aware parents (spec 4.3 step 2). -/
def Decl.allFields : Decl → List FieldDecl
  | .node _ fs ps => fs ++ Decl.allFieldsOfList ps

/-- All fields of each declaration in a list, concatenated. -/
def Decl.allFieldsOfList : List Decl → List FieldDecl
  | [] => []
  | d :: ds => Decl.allFields d ++ Decl.allFieldsOfList ds

end

/-- Modelled from the spec: a rewritten relational-field target — the
concrete counterpart of a tenant-aware declaration for one tenant, or
an unchanged shared (non-tenant-aware) target. -/
inductive ConcreteTarget where
  | concreteOf (target : DeclId) (tenant : TenantId)
  | shared (name : String)
deriving DecidableEq, Repr

/-- Modelled from the spec: a field of a synthesized concrete model. -/
inductive ConcreteField where
  | plain (name : String)
  | fk (name : String) (target : ConcreteTarget)
  | m2m (name : String) (target : ConcreteTarget) (through : Option ConcreteTarget)
deriving DecidableEq, Repr

/-- Modelled from the spec (4.2, Relation Rewriter): a tenant-aware
target is resolved to its concrete model for the *same* tenant; a
non-tenant-aware target is returned unchanged. -/
def rewriteTarget (tenant : TenantId) : RelTarget → ConcreteTarget
  | .tenantAware d2 => .concreteOf d2 tenant
  | .nonTenant n => .shared n

/-- Modelled from the spec (4.2): plain fields pass through; foreign
keys and many-to-many fields (and the through model, when present and
tenant-aware) have their targets rewritten for the current tenant. -/
def rewriteField (tenant : TenantId) : FieldDecl → ConcreteField
  | .plain n => .plain n
  | .fk n tgt => .fk n (rewriteTarget tenant tgt)
  | .m2m n tgt th => .m2m n (rewriteTarget tenant tgt) (th.map (rewriteTarget tenant))

/-- A generated table name: deterministic and collision-free, derived
from the declaration identity and the tenant identity (spec 4.3
step 1). -/
abbrev TableName := DeclId × TenantId

/-- Modelled from the spec: a synthesized concrete per-tenant model —
its originating declaration, owning tenant, generated table name, and
rewritten field set. -/
structure ConcreteModel where
  decl : Decl
  tenant : TenantId
  table : TableName
  fields : List ConcreteField

/-- Modelled from the spec (4.3, Model Synthesizer): compute the
deterministic table name, rewrite every declared and inherited field
via the Relation Rewriter, and record the originating declaration (the
genuine subclass link that makes the type-check protocol work). -/
def synthesize (d : Decl) (t : TenantId) : ConcreteModel :=
  ⟨d, t, (d.id, t), (d.allFields).map (rewriteField t)⟩

/-- Modelled from the spec (4.6): `issubclass` of a concrete model
against an abstract declaration holds exactly when the declaration is
the concrete model's originating declaration or one of its tenant-aware
ancestors. -/
def ConcreteModel.issubclassOfDecl (m : ConcreteModel) (d : DeclId) : Bool :=
  decide (d ∈ m.decl.ancestorIds)

/-- An instance of a concrete per-tenant model. -/
structure ModelInstance where
  model : ConcreteModel

/-- Modelled from the spec (4.6): `isinstance` of an instance against an
abstract declaration delegates to the subclass check of the instance's
concrete type. -/
def ModelInstance.isinstanceOfDecl (i : ModelInstance) (d : DeclId) : Bool :=
  i.model.issubclassOfDecl d

/-- A database row (identified by an opaque value). -/
abbrev Row := Nat

/-- Modelled from the spec: a reflection-metadata (content-type) record,
scoped to a tenant and recording the originating declaration. -/
structure ContentTypeRecord where
  tenant : TenantId
  decl : DeclId
deriving DecidableEq, Repr

/-- Association-list lookup used by the registry and the table store. -/
def assocFind {α β : Type} [DecidableEq α] : List (α × β) → α → Option β
  | [], _ => none
  | (k, v) :: rest, key => if k = key then some v else assocFind rest key

/-- Modelled from the spec: the process-wide engine state — the Model
Registry / Type Cache keyed by (declaration identity, tenant identity),
the reflection-metadata records, and the backing tables with their
rows. -/
structure EngineState where
  registry : List ((DeclId × TenantId) × ConcreteModel)
  content_types : List ContentTypeRecord
  tables : List (TableName × List Row)

/-- The engine state at process start: nothing synthesized. -/
def EngineState.empty : EngineState := ⟨[], [], []⟩

/-- Modelled from the spec (4.1 and 4.3 steps 4-5):
`Registry.get_or_create(declaration, tenant)` — on a cache hit return
the cached concrete type unchanged; on a miss invoke the Model
Synthesizer, commit the result to the registry, get-or-create the
reflection-metadata record, and create the backing table if absent. -/
def get_or_create (d : Decl) (t : TenantId) (s : EngineState) :
    ConcreteModel × EngineState :=
  match assocFind s.registry (d.id, t) with
  | some m => (m, s)
  | none =>
    let m := synthesize d t
    let cts :=
      if (⟨t, d.id⟩ : ContentTypeRecord) ∈ s.content_types then s.content_types
      else ⟨t, d.id⟩ :: s.content_types
    let tbls :=
      match assocFind s.tables m.table with
      | some _ => s.tables
      | none => (m.table, ([] : List Row)) :: s.tables
    (m, ⟨((d.id, t), m) :: s.registry, cts, tbls⟩)

/-- Append a row to the named table, creating the table if absent. -/
def assocAppendRow : List (TableName × List Row) → TableName → Row →
    List (TableName × List Row)
  | [], tbl, r => [(tbl, [r])]
  | (k, rs) :: rest, tbl, r =>
    if k = tbl then (k, rs ++ [r]) :: rest else (k, rs) :: assocAppendRow rest tbl r

/-- The rows currently stored in a table (empty when the table does not
exist). -/
def tableRows (s : EngineState) (tbl : TableName) : List Row :=
  (assocFind s.tables tbl).getD []

/-- Modelled from the spec (4.4): a tenant's manager for a concrete
model creates rows in that model's backing table. -/
def manager_create (s : EngineState) (m : ConcreteModel) (r : Row) : EngineState :=
  ⟨s.registry, s.content_types, assocAppendRow s.tables m.table r⟩

/-- Modelled from the spec (4.4): the rows a manager bound to a concrete
model can see — exactly the contents of that model's backing table. -/
def manager_rows (s : EngineState) (m : ConcreteModel) : List Row :=
  tableRows s m.table

/-- Modelled from the spec (4.5, Lifecycle Hooks): deleting tenant `t` —
for every concrete model ever synthesized for `t` (tracked via the
reflection-metadata records scoped to `t`), drop its backing table and
remove its metadata record; then evict all corresponding Registry cache
entries. -/
def delete_tenant (t : TenantId) (s : EngineState) : EngineState :=
  let doomed := (s.content_types.filter fun c => decide (c.tenant = t)).map (·.decl)
  ⟨s.registry.filter fun e => decide (¬(e.1.2 = t ∧ e.1.1 ∈ doomed)),
   s.content_types.filter fun c => decide (c.tenant ≠ t),
   s.tables.filter fun e => decide (¬(e.1.2 = t ∧ e.1.1 ∈ doomed))⟩

/-- Tracking invariant (spec 4.3 step 4 and 4.5): every registry entry
and every backing table has a reflection-metadata record scoped to its
tenant and recording its declaration.  Established by `get_or_create`
and consumed by `delete_tenant`. -/
def tracked (s : EngineState) : Prop :=
  (∀ e ∈ s.registry, (⟨e.1.2, e.1.1⟩ : ContentTypeRecord) ∈ s.content_types) ∧
  (∀ e ∈ s.tables, (⟨e.1.2, e.1.1⟩ : ContentTypeRecord) ∈ s.content_types)

/-- Registry well-formedness: a cached concrete model is stored under
the key naming its own declaration and tenant, with its deterministic
table name. -/
def registryWF (s : EngineState) : Prop :=
  ∀ e ∈ s.registry, e.2.decl.id = e.1.1 ∧ e.2.tenant = e.1.2 ∧ e.2.table = e.1

/-- The six lifecycle signals (spec 4.3 step 6). -/
inductive SignalKind where
  | pre_init
  | post_init
  | pre_save
  | post_save
  | pre_delete
  | post_delete
deriving DecidableEq, Repr

/-- A dispatched signal: its kind and its sender (the concrete type). -/
structure SignalEvent where
  kind : SignalKind
  sender : ConcreteModel

/-- Modelled from the spec: constructing an instance of a concrete model
dispatches `pre_init` then `post_init` with the concrete type as
sender. -/
def construct_signals (m : ConcreteModel) : List SignalEvent :=
  [⟨.pre_init, m⟩, ⟨.post_init, m⟩]

/-- Modelled from the spec: saving an instance dispatches `pre_save`
then `post_save` with the concrete type as sender. -/
def save_signals (m : ConcreteModel) : List SignalEvent :=
  [⟨.pre_save, m⟩, ⟨.post_save, m⟩]

/-- Modelled from the spec: deleting an instance dispatches `pre_delete`
then `post_delete` with the concrete type as sender. -/
def delete_signals (m : ConcreteModel) : List SignalEvent :=
  [⟨.pre_delete, m⟩, ⟨.post_delete, m⟩]

/-- The signal log of constructing, saving, then deleting an instance of
a concrete model. -/
def lifecycle_signal_log (m : ConcreteModel) : List SignalEvent :=
  construct_signals m ++ save_signals m ++ delete_signals m

/-- The tenant identities mentioned by a rewritten target. -/
def concreteTargetTenants : ConcreteTarget → List TenantId
  | .concreteOf _ t => [t]
  | .shared _ => []

/-- The tenant identities mentioned by a concrete field's relational
endpoints (foreign-key target, many-to-many target, through model). -/
def concreteFieldTenants : ConcreteField → List TenantId
  | .plain _ => []
  | .fk _ tgt => concreteTargetTenants tgt
  | .m2m _ tgt th =>
    concreteTargetTenants tgt ++ (th.map concreteTargetTenants).getD []

/-- Sample declaration mirroring the test suite's `SpecificModel`: a
plain `date` field and a foreign key `non_tenant` to a non-tenant-aware
model. -/
def specificModelDecl : Decl :=
  .node 0 [.plain "date", .fk "non_tenant" (.nonTenant "tests.NonTenantModel")] []

/-- Sample declaration mirroring the test suite's `RelatedTenantModel`:
a foreign key `fk` and a many-to-many `m2m`, both to the tenant-aware
`SpecificModel` declaration. -/
def relatedTenantModelDecl : Decl :=
  .node 1
    [.fk "fk" (.tenantAware 0), .m2m "m2m" (.tenantAware 0) none] []

/-- Sample declaration mirroring the test suite's
`SpecificModelSubclass`: no own fields, subclassing `SpecificModel`. -/
def specificModelSubclassDecl : Decl :=
  .node 2 [] [specificModelDecl]

/-- The run the isolation test performs: synthesize (or fetch) the
concrete model of one declaration for two tenants in sequence,
returning both (model, state) pairs. -/
def two_tenant_run (d : Decl) (t1 t2 : TenantId) (s : EngineState) :
    (ConcreteModel × EngineState) × (ConcreteModel × EngineState) :=
  let p1 := get_or_create d t1 s
  (p1, get_or_create d t2 p1.2)

/-- A sample engine state: `SpecificModel` synthesized for tenant 1 on
a fresh process. -/
def sampleState : EngineState :=
  (get_or_create specificModelDecl 1 EngineState.empty).2

/-! ## Theorems -/

/-- A key found by `assocFind` names an entry of the list. -/
theorem assocFind_mem {α β : Type} [DecidableEq α] :
    ∀ (l : List (α × β)) (k : α) (v : β), assocFind l k = some v → (k, v) ∈ l := by
  intro l k v h
  induction l with
  | nil => simp [assocFind] at h
  | cons e rest ih =>
    rw [show (e :: rest) = ((e.1, e.2) :: rest) by rfl, assocFind] at h
    by_cases hk : e.1 = k
    · rw [if_pos hk] at h
      cases h
      rw [← hk]
      exact List.mem_cons_self _ _
    · rw [if_neg hk] at h
      exact List.mem_cons_of_mem _ (ih h)

/-- Looking up the key just inserted at the head succeeds. -/
theorem assocFind_cons_self {α β : Type} [DecidableEq α]
    (k : α) (v : β) (rest : List (α × β)) :
    assocFind ((k, v) :: rest) k = some v := by
  simp [assocFind]

/-- Appending a row to one table leaves every other table's lookup
unchanged. -/
theorem assocFind_assocAppendRow_ne :
    ∀ (l : List (TableName × List Row)) (k k' : TableName) (r : Row),
      k ≠ k' → assocFind (assocAppendRow l k r) k' = assocFind l k' := by
  intro l k k' r hne
  induction l with
  | nil => simp [assocAppendRow, assocFind, hne]
  | cons e rest ih =>
    rw [show (e :: rest) = ((e.1, e.2) :: rest) by rfl, assocAppendRow]
    by_cases hk : e.1 = k
    · rw [if_pos hk]
      rw [assocFind, assocFind, if_neg (by rw [hk]; exact hne), if_neg (by rw [hk]; exact hne)]
    · rw [if_neg hk]
      rw [assocFind, assocFind]
      by_cases hk' : e.1 = k'
      · rw [if_pos hk', if_pos hk']
      · rw [if_neg hk', if_neg hk']
        exact ih

/-- C6: the spec and the repository's own test expect a malformed
`TENANCY_TENANT_MODEL` value (no dot, e.g. `invalid`) to raise
`ImproperlyConfigured` saying the value must be of the form
`app_label.model_name`; the source performs the tuple unpacking
`app_label, object_name = TENANT_MODEL.split('.')` with no handler, so
the lookup instead dies with a bare `ValueError` and no
`ImproperlyConfigured` is ever raised. -/
theorem get_tenant_model_malformed_value_error :
    get_tenant_model sampleEnv "invalid" none =
      .error (.valueError "need exactly 2 values to unpack, got 1") ∧
    ∀ msg, get_tenant_model sampleEnv "invalid" none ≠
      .error (.improperlyConfigured msg) := by
  have h0 : get_tenant_model sampleEnv "invalid" none =
      .error (.valueError "need exactly 2 values to unpack, got 1") := by decide
  refine ⟨h0, fun msg h => ?_⟩
  rw [h0] at h
  simp at h

/-- C7: for a well-formed setting value splitting into `app_label` and
`object_name`, if the `get_model` lookup (at the lowercased model name
and the flags derived from `origin`) finds nothing, `get_tenant_model`
raises `ImproperlyConfigured` with the message
`TENANCY_TENANT_MODEL refers to model 'app_label.object_name' that has
not been installed`. -/
theorem get_tenant_model_not_installed (env : DjangoEnv) (tm : String)
    (origin : Option String) (a o : String)
    (hsplit : pySplit '.' tm = [a, o])
    (hmiss : env.get_model a (pyLower o) origin.isNone
      (decide (origin ≠ some a)) = none) :
    get_tenant_model env tm origin =
      .error (.improperlyConfigured
        ("TENANCY_TENANT_MODEL refers to model '" ++ a ++ "." ++ o ++
          "' that has not been installed")) := by
  have hmiss2 : env.get_model a (pyLower o) origin.isNone
      (!decide (origin = some a)) = none := by simpa using hmiss
  simp [get_tenant_model, get_tenant_model_body, tenant_model_lookup_args, hsplit, hmiss2]

/-- Witness for C7 at the test suite's own input `not.Installed`. -/
theorem get_tenant_model_not_installed_witness :
    pySplit '.' "not.Installed" = ["not", "Installed"] ∧
    sampleEnv.get_model "not" (pyLower "Installed") (none : Option String).isNone
      (decide ((none : Option String) ≠ some "not")) = none ∧
    get_tenant_model sampleEnv "not.Installed" none =
      .error (.improperlyConfigured
        "TENANCY_TENANT_MODEL refers to model 'not.Installed' that has not been installed") :=
  ⟨by decide, by decide, by
    have h := get_tenant_model_not_installed sampleEnv "not.Installed" none
      "not" "Installed" (by decide) (by decide)
    rw [h]
    decide⟩

/-- C8: for a well-formed setting value whose `get_model` lookup finds
an installed model class, `get_tenant_model` raises
`ImproperlyConfigured` with the message `TENANCY_TENANT_MODEL refers to
models 'app_label.object_name' which is not a subclass of
'tenancy.AbstractTenant'` when the class is not an `AbstractTenant`
subclass, and returns the class when it is. -/
theorem get_tenant_model_subclass_check (env : DjangoEnv) (tm : String)
    (origin : Option String) (a o : String) (mcls : PyModelClass)
    (hsplit : pySplit '.' tm = [a, o])
    (hfound : env.get_model a (pyLower o) origin.isNone
      (decide (origin ≠ some a)) = some mcls) :
    get_tenant_model env tm origin =
      (if mcls.subclassesAbstractTenant then .ok mcls
       else .error (.improperlyConfigured
         ("TENANCY_TENANT_MODEL refers to models '" ++ a ++ "." ++ o ++
           "' which is not a subclass of 'tenancy.AbstractTenant'"))) := by
  have hfound2 : env.get_model a (pyLower o) origin.isNone
      (!decide (origin = some a)) = some mcls := by simpa using hfound
  simp [get_tenant_model, get_tenant_model_body, tenant_model_lookup_args, hsplit, hfound2]

/-- Witness for C8 at the test suite's own inputs:
`contenttypes.ContentType` (installed, not an `AbstractTenant`
subclass) is rejected with the exact message the test expects, and
`tenancy.Tenant` (an `AbstractTenant` subclass) is returned. -/
theorem get_tenant_model_subclass_check_witness :
    pySplit '.' "contenttypes.ContentType" = ["contenttypes", "ContentType"] ∧
    sampleEnv.get_model "contenttypes" (pyLower "ContentType") (none : Option String).isNone
      (decide ((none : Option String) ≠ some "contenttypes")) =
      some ⟨"contenttypes", "ContentType", false⟩ ∧
    get_tenant_model sampleEnv "contenttypes.ContentType" none =
      .error (.improperlyConfigured
        "TENANCY_TENANT_MODEL refers to models 'contenttypes.ContentType' which is not a subclass of 'tenancy.AbstractTenant'") ∧
    get_tenant_model sampleEnv "tenancy.Tenant" none =
      .ok ⟨"tenancy", "Tenant", true⟩ :=
  ⟨by decide, by decide, by
    have h := get_tenant_model_subclass_check sampleEnv "contenttypes.ContentType"
      none "contenttypes" "ContentType" ⟨"contenttypes", "ContentType", false⟩
      (by decide) (by decide)
    rw [h]
    decide, by
    have h := get_tenant_model_subclass_check sampleEnv "tenancy.Tenant"
      none "tenancy" "Tenant" ⟨"tenancy", "Tenant", true⟩
      (by decide) (by decide)
    rw [h]
    decide⟩

/-- C10: on a well-split setting value, `get_tenant_model` reduces to
the post-split body, whose `get_model` lookup arguments satisfy:
`seed_cache` is true exactly when `origin` is absent, `only_installed`
is false exactly when `origin` equals the setting's app label, and the
model name passed to the lookup is the lowercased object name (so the
`ModelName` half of the setting is matched case-insensitively). -/
theorem get_tenant_model_origin_flags (env : DjangoEnv) (tm : String)
    (origin : Option String) (a o : String)
    (hsplit : pySplit '.' tm = [a, o]) :
    get_tenant_model env tm origin = get_tenant_model_body env a o origin ∧
    ((tenant_model_lookup_args a o origin).2.2.1 = true ↔ origin = none) ∧
    ((tenant_model_lookup_args a o origin).2.2.2 = false ↔ origin = some a) ∧
    (tenant_model_lookup_args a o origin).1 = a ∧
    (tenant_model_lookup_args a o origin).2.1 = pyLower o := by
  refine ⟨by unfold get_tenant_model; rw [hsplit], ?_, ?_, rfl, rfl⟩
  · unfold tenant_model_lookup_args
    exact Option.isNone_iff_eq_none
  · unfold tenant_model_lookup_args
    simp

/-- Witness for C10: the setting `tenancy.Tenant` looked up with
`origin = "tenancy"` (equal to the app label). -/
theorem get_tenant_model_origin_flags_witness :
    pySplit '.' "tenancy.Tenant" = ["tenancy", "Tenant"] ∧
    (get_tenant_model sampleEnv "tenancy.Tenant" (some "tenancy") =
      get_tenant_model_body sampleEnv "tenancy" "Tenant" (some "tenancy") ∧
    ((tenant_model_lookup_args "tenancy" "Tenant" (some "tenancy")).2.2.1 = true ↔
      (some "tenancy" : Option String) = none) ∧
    ((tenant_model_lookup_args "tenancy" "Tenant" (some "tenancy")).2.2.2 = false ↔
      (some "tenancy" : Option String) = some "tenancy") ∧
    (tenant_model_lookup_args "tenancy" "Tenant" (some "tenancy")).1 = "tenancy" ∧
    (tenant_model_lookup_args "tenancy" "Tenant" (some "tenancy")).2.1 =
      pyLower "Tenant") :=
  ⟨by decide, get_tenant_model_origin_flags sampleEnv "tenancy.Tenant"
    (some "tenancy") "tenancy" "Tenant" (by decide)⟩

/-- C2: `Registry.get_or_create(D, T)` is idempotent — a second call
with the same declaration and tenant returns the very concrete model
the first call cached, and leaves the engine state untouched, so type
identity is stable across repeated lookups. -/
theorem registry_get_or_create_idempotent (d : Decl) (t : TenantId) (s : EngineState) :
    (get_or_create d t (get_or_create d t s).2).1 = (get_or_create d t s).1 ∧
    (get_or_create d t (get_or_create d t s).2).2 = (get_or_create d t s).2 := by
  unfold get_or_create
  cases h : assocFind s.registry (d.id, t) with
  | some m => simp [h]
  | none => simp [h, assocFind]

/-- `get_or_create` hands back a concrete model whose declaration,
tenant and table name match the requested key, and preserves registry
well-formedness. -/
theorem get_or_create_wf (d : Decl) (t : TenantId) (s : EngineState)
    (hwf : registryWF s) :
    (get_or_create d t s).1.decl.id = d.id ∧ (get_or_create d t s).1.tenant = t ∧
    (get_or_create d t s).1.table = (d.id, t) ∧ registryWF (get_or_create d t s).2 := by
  unfold get_or_create
  cases h : assocFind s.registry (d.id, t) with
  | some m =>
    have hm := hwf _ (assocFind_mem _ _ _ h)
    exact ⟨hm.1, hm.2.1, hm.2.2, hwf⟩
  | none =>
    refine ⟨rfl, rfl, rfl, ?_⟩
    unfold registryWF
    intro e he
    dsimp only at he
    rcases List.mem_cons.mp he with h1 | h2
    · subst h1
      exact ⟨rfl, rfl, rfl⟩
    · exact hwf e h2

/-- C1: two-run tenant isolation — for distinct tenants, the registry
returns distinct concrete models, and a row created through the first
tenant's manager is invisible through the second tenant's manager. -/
theorem tenant_isolation (d : Decl) (t1 t2 : TenantId) (s : EngineState) (r : Row)
    (hne : t1 ≠ t2) (hwf : registryWF s) :
    (two_tenant_run d t1 t2 s).1.1 ≠ (two_tenant_run d t1 t2 s).2.1 ∧
    manager_rows
      (manager_create (two_tenant_run d t1 t2 s).2.2 (two_tenant_run d t1 t2 s).1.1 r)
      (two_tenant_run d t1 t2 s).2.1 =
    manager_rows (two_tenant_run d t1 t2 s).2.2 (two_tenant_run d t1 t2 s).2.1 := by
  have h1 := get_or_create_wf d t1 s hwf
  have h2 := get_or_create_wf d t2 (get_or_create d t1 s).2 h1.2.2.2
  unfold two_tenant_run
  dsimp only
  have htbl : (get_or_create d t1 s).1.table ≠
      (get_or_create d t2 (get_or_create d t1 s).2).1.table := by
    rw [h1.2.2.1, h2.2.2.1]
    intro hp
    exact hne (congrArg Prod.snd hp)
  constructor
  · intro heq
    apply hne
    rw [← h1.2.1, ← h2.2.1, heq]
  · unfold manager_rows manager_create tableRows
    dsimp only
    rw [assocFind_assocAppendRow_ne _ _ _ r htbl]

/-- Witness for C1: tenants 1 and 2 on a fresh engine state. -/
theorem tenant_isolation_witness :
    (1 : TenantId) ≠ 2 ∧ registryWF EngineState.empty ∧
    ((two_tenant_run specificModelDecl 1 2 EngineState.empty).1.1 ≠
      (two_tenant_run specificModelDecl 1 2 EngineState.empty).2.1 ∧
    manager_rows
      (manager_create (two_tenant_run specificModelDecl 1 2 EngineState.empty).2.2
        (two_tenant_run specificModelDecl 1 2 EngineState.empty).1.1 0)
      (two_tenant_run specificModelDecl 1 2 EngineState.empty).2.1 =
    manager_rows (two_tenant_run specificModelDecl 1 2 EngineState.empty).2.2
      (two_tenant_run specificModelDecl 1 2 EngineState.empty).2.1) :=
  ⟨by decide, by unfold registryWF; decide,
    tenant_isolation specificModelDecl 1 2 EngineState.empty 0 (by decide)
      (by unfold registryWF; decide)⟩

/-- C3: every relational endpoint of every field of a model synthesized
for tenant `t` (foreign-key target, many-to-many target, and through
model alike) that resolves to a tenant-aware concrete model resolves to
tenant `t`'s — the rewriter never produces a cross-tenant target. -/
theorem rewritten_relations_stay_in_tenant (d : Decl) (t : TenantId) :
    ∀ f ∈ (synthesize d t).fields, ∀ τ ∈ concreteFieldTenants f, τ = t := by
  intro f hf τ hτ
  unfold synthesize at hf
  dsimp only at hf
  rcases List.mem_map.mp hf with ⟨f0, _, rfl⟩
  cases f0 with
  | plain n =>
    simp [rewriteField, concreteFieldTenants] at hτ
  | fk n tgt =>
    cases tgt <;>
      simp_all [rewriteField, rewriteTarget, concreteFieldTenants, concreteTargetTenants]
  | m2m n tgt th =>
    rcases th with _ | th0
    · cases tgt <;>
        simp_all [rewriteField, rewriteTarget, concreteFieldTenants, concreteTargetTenants]
    · cases tgt <;> cases th0 <;>
        simp_all [rewriteField, rewriteTarget, concreteFieldTenants, concreteTargetTenants]

/-- Witness for C3: the foreign key of `RelatedTenantModel` synthesized
for tenant 5 targets tenant 5's `SpecificModel`. -/
theorem rewritten_relations_stay_in_tenant_witness :
    (ConcreteField.fk "fk" (.concreteOf 0 5)) ∈
      (synthesize relatedTenantModelDecl 5).fields ∧
    (5 : TenantId) ∈ concreteFieldTenants (ConcreteField.fk "fk" (.concreteOf 0 5)) ∧
    (5 : TenantId) = 5 :=
  ⟨by decide, by decide,
    rewritten_relations_stay_in_tenant relatedTenantModelDecl 5
      (ConcreteField.fk "fk" (.concreteOf 0 5)) (by decide) 5 (by decide)⟩

/-- C4: a concrete model synthesized from declaration `d` for any
tenant passes `issubclass` against `d` itself and against every
tenant-aware ancestor declaration of `d`, and its instances pass
`isinstance` against `d`; both checks fail against any declaration
unrelated to `d`. -/
theorem concrete_model_typechecks (d : Decl) (t : TenantId) :
    (synthesize d t).issubclassOfDecl d.id = true ∧
    (∀ i ∈ d.ancestorIds, (synthesize d t).issubclassOfDecl i = true) ∧
    (∀ i, i ∉ d.ancestorIds → (synthesize d t).issubclassOfDecl i = false) ∧
    (ModelInstance.mk (synthesize d t)).isinstanceOfDecl d.id = true ∧
    (∀ i, i ∉ d.ancestorIds →
      (ModelInstance.mk (synthesize d t)).isinstanceOfDecl i = false) := by
  have hid : d.id ∈ d.ancestorIds := by
    cases d with
    | node i fs ps =>
      rw [Decl.ancestorIds, Decl.id]
      exact List.mem_cons_self _ _
  refine ⟨?_, fun i hi => ?_, fun i hi => ?_, ?_, fun i hi => ?_⟩ <;>
    simp [ConcreteModel.issubclassOfDecl, ModelInstance.isinstanceOfDecl,
      synthesize, hid, *]

/-- Witness for C4: the subclass declaration (id 2, parent
`SpecificModel` with id 0) synthesized for tenant 1 passes the checks
against itself and its parent and fails against the unrelated id 3. -/
theorem concrete_model_typechecks_witness :
    (0 : DeclId) ∈ specificModelSubclassDecl.ancestorIds ∧
    (3 : DeclId) ∉ specificModelSubclassDecl.ancestorIds ∧
    (synthesize specificModelSubclassDecl 1).issubclassOfDecl
      specificModelSubclassDecl.id = true ∧
    (synthesize specificModelSubclassDecl 1).issubclassOfDecl 0 = true ∧
    (synthesize specificModelSubclassDecl 1).issubclassOfDecl 3 = false ∧
    (ModelInstance.mk (synthesize specificModelSubclassDecl 1)).isinstanceOfDecl
      specificModelSubclassDecl.id = true ∧
    (ModelInstance.mk (synthesize specificModelSubclassDecl 1)).isinstanceOfDecl 3 =
      false :=
  ⟨by decide, by decide,
    (concrete_model_typechecks specificModelSubclassDecl 1).1,
    (concrete_model_typechecks specificModelSubclassDecl 1).2.1 0 (by decide),
    (concrete_model_typechecks specificModelSubclassDecl 1).2.2.1 3 (by decide),
    (concrete_model_typechecks specificModelSubclassDecl 1).2.2.2.1,
    (concrete_model_typechecks specificModelSubclassDecl 1).2.2.2.2 3 (by decide)⟩

/-- C5: on a state whose registry entries and tables are tracked by
reflection-metadata records, deleting tenant `t` leaves no metadata
record scoped to `t`, no backing table of `t`'s, and no registry cache
entry keyed by `t`. -/
theorem delete_tenant_purges (t : TenantId) (s : EngineState) (h : tracked s) :
    (∀ c ∈ (delete_tenant t s).content_types, c.tenant ≠ t) ∧
    (∀ e ∈ (delete_tenant t s).tables, e.1.2 ≠ t) ∧
    (∀ e ∈ (delete_tenant t s).registry, e.1.2 ≠ t) := by
  unfold delete_tenant
  dsimp only
  refine ⟨fun c hc => ?_, fun e he => ?_, fun e he => ?_⟩
  · rw [List.mem_filter] at hc
    simpa using hc.2
  · rw [List.mem_filter] at he
    intro hte
    have hct := h.2 e he.1
    have hdoomed : e.1.1 ∈
        ((s.content_types.filter fun c => decide (c.tenant = t)).map (·.decl)) := by
      rw [List.mem_map]
      refine ⟨⟨e.1.2, e.1.1⟩, ?_, rfl⟩
      rw [List.mem_filter]
      exact ⟨hct, by simp [hte]⟩
    exact (of_decide_eq_true he.2) ⟨hte, hdoomed⟩
  · rw [List.mem_filter] at he
    intro hte
    have hct := h.1 e he.1
    have hdoomed : e.1.1 ∈
        ((s.content_types.filter fun c => decide (c.tenant = t)).map (·.decl)) := by
      rw [List.mem_map]
      refine ⟨⟨e.1.2, e.1.1⟩, ?_, rfl⟩
      rw [List.mem_filter]
      exact ⟨hct, by simp [hte]⟩
    exact (of_decide_eq_true he.2) ⟨hte, hdoomed⟩

/-- Witness for C5: deleting tenant 1 on the state where
`SpecificModel` was synthesized for tenant 1. -/
theorem delete_tenant_purges_witness :
    tracked sampleState ∧
    ((∀ c ∈ (delete_tenant 1 sampleState).content_types, c.tenant ≠ 1) ∧
     (∀ e ∈ (delete_tenant 1 sampleState).tables, e.1.2 ≠ 1) ∧
     (∀ e ∈ (delete_tenant 1 sampleState).registry, e.1.2 ≠ 1)) :=
  ⟨by unfold tracked; decide,
    delete_tenant_purges 1 sampleState (by unfold tracked; decide)⟩

/-- C9: constructing, saving, then deleting an instance of a concrete
per-tenant model dispatches exactly the six lifecycle signals in the
order pre-init, post-init, pre-save, post-save, pre-delete,
post-delete, each with the concrete type as sender. -/
theorem lifecycle_signal_dispatch (d : Decl) (t : TenantId) :
    (lifecycle_signal_log (synthesize d t)).map SignalEvent.kind =
      [.pre_init, .post_init, .pre_save, .post_save, .pre_delete, .post_delete] ∧
    (lifecycle_signal_log (synthesize d t)).map SignalEvent.sender =
      [synthesize d t, synthesize d t, synthesize d t,
       synthesize d t, synthesize d t, synthesize d t] := by
  exact ⟨rfl, rfl⟩

end Tenancy
